import Mathlib

/-!
Verification development for the Fyrox-glTF repository slice: the editor UI,
animation tooling and deferred-renderer passes.  Rust machine integers are
modelled as `Nat` with the bit width `w = 8 * size_of T` passed explicitly
where the source relies on it; fallible framework draw calls are modelled by
an oracle returning `Except FrameworkError _`, and each render function is
embedded as a function that also returns the ordered list of draw events it
issued.
-/

namespace Fyrox

/-! ## fyrox-ui/src/bit.rs

`BitContainer` values are unsigned machine integers; a value of the type with
bit width `w` is a `Nat` below `2 ^ w`.  `set_bit`, `reset_bit` and
`is_bit_set` follow the source exactly: `value | (1 << i)`,
`value & !(1 << i)` (where `!` is the width-`w` bitwise complement) and
`value & (1 << i) != 0`. -/

def set_bit (v i : Nat) : Nat :=
  v ||| (1 <<< i)

def reset_bit (w v i : Nat) : Nat :=
  v &&& ((2 ^ w - 1) ^^^ (1 <<< i))

def is_bit_set (v i : Nat) : Bool :=
  v &&& (1 <<< i) != 0

theorem one_shiftLeft (i : Nat) : 1 <<< i = 2 ^ i := by
  rw [Nat.shiftLeft_eq, one_mul]

theorem is_bit_set_eq_testBit (v i : Nat) : is_bit_set v i = v.testBit i := by
  unfold is_bit_set
  rw [one_shiftLeft, Nat.and_two_pow]
  cases h : v.testBit i <;> simp [h, (Nat.two_pow_pos i).ne']

theorem testBit_set_bit (v i j : Nat) :
    (set_bit v i).testBit j = (v.testBit j || decide (i = j)) := by
  unfold set_bit
  rw [one_shiftLeft, Nat.testBit_or, Nat.testBit_two_pow]

theorem testBit_reset_bit {w : Nat} (v i j : Nat) (hi : i < w) (hj : j < w) :
    (reset_bit w v i).testBit j = (v.testBit j && !decide (i = j)) := by
  unfold reset_bit
  rw [one_shiftLeft, Nat.testBit_and, Nat.testBit_xor, Nat.testBit_two_pow_sub_one,
    Nat.testBit_two_pow]
  simp [hj]

/-- C8: for every unsigned `BitContainer` value `v` (a `Nat` below `2 ^ w`) and
bit indices `i`, `j` strictly below the bit width `w`:
`is_bit_set (set_bit v i) i` is true, `is_bit_set (reset_bit v i) i` is false,
and for `j ≠ i` both `set_bit v i` and `reset_bit v i` leave bit `j` exactly as
it is in `v`: the two operations change only bit `i`. -/
theorem bit_ops_change_only_target_bit (w v i j : Nat)
    (hv : v < 2 ^ w) (hi : i < w) (hj : j < w) :
    is_bit_set (set_bit v i) i = true ∧
    is_bit_set (reset_bit w v i) i = false ∧
    (j ≠ i →
      is_bit_set (set_bit v i) j = is_bit_set v j ∧
      is_bit_set (reset_bit w v i) j = is_bit_set v j) := by
  refine ⟨?_, ?_, fun hne => ⟨?_, ?_⟩⟩
  · rw [is_bit_set_eq_testBit, testBit_set_bit]
    simp
  · rw [is_bit_set_eq_testBit, testBit_reset_bit v i i hi hi]
    simp
  · rw [is_bit_set_eq_testBit, is_bit_set_eq_testBit, testBit_set_bit]
    simp [Ne.symm hne]
  · rw [is_bit_set_eq_testBit, is_bit_set_eq_testBit, testBit_reset_bit v i j hi hj]
    simp [Ne.symm hne]

/-- Witness for C8 at `w = 8`, `v = 0b1010`, `i = 1`, `j = 3`. -/
theorem bit_ops_change_only_target_bit_witness :
    10 < 2 ^ 8 ∧ 1 < 8 ∧ 3 < 8 ∧
    (is_bit_set (set_bit 10 1) 1 = true ∧
     is_bit_set (reset_bit 8 10 1) 1 = false ∧
     ((3 : Nat) ≠ 1 →
       is_bit_set (set_bit 10 1) 3 = is_bit_set 10 3 ∧
       is_bit_set (reset_bit 8 10 1) 3 = is_bit_set 10 3)) :=
  ⟨by decide, by decide, by decide,
    bit_ops_change_only_target_bit 8 10 1 3 (by decide) (by decide) (by decide)⟩

/-! ## fyrox-ui message plumbing, reduced to what `bit.rs` routes

A `UiMessage` carries a payload, a destination widget handle and a direction;
`UiMessage::reverse` flips the direction and keeps everything else.  Handles
are modelled as `Nat`. -/

inductive MessageDirection
  | ToWidget
  | FromWidget
deriving DecidableEq, Repr

inductive MouseButton
  | Left
  | Right
  | Middle
deriving DecidableEq, Repr

/-- The message payloads `BitField::handle_routed_message` pattern-matches on:
`CheckBoxMessage::Check`, `BitFieldMessage::Value` (its `T` payload a width-`w`
natural) and `WidgetMessage::MouseDown`; every other payload is `other`. -/
inductive UiMessageData
  | check (b : Option Bool)
  | bitValue (v : Nat)
  | mouseDown (button : MouseButton)
  | other
deriving DecidableEq, Repr

structure UiMessage where
  data : UiMessageData
  destination : Nat
  direction : MessageDirection
deriving DecidableEq, Repr

def UiMessage.reverse (m : UiMessage) : UiMessage :=
  { m with
    direction := match m.direction with
      | .ToWidget => .FromWidget
      | .FromWidget => .ToWidget }

/-- The state of a `BitField<T>` widget: its own handle, the current value and
the handles of the per-bit checkbox switches. -/
structure BitField where
  handle : Nat
  value : Nat
  bit_switches : List Nat
deriving DecidableEq, Repr

/-- `BitField::sync_switches`: send every switch its bit of the current value. -/
def BitField.sync_switches (bf : BitField) : List UiMessage :=
  bf.bit_switches.enum.map fun p =>
    { data := .check (some (is_bit_set bf.value p.1)),
      destination := p.2,
      direction := .ToWidget }

/-- `BitField::handle_routed_message`.  The base `Widget` processing touches no
`BitField` field and is omitted; `ui.send_message` calls become the returned
message list (in send order); `has_descendant` stands for the UI-tree query
`ui.node(bit).has_descendant(message.destination(), ui)`. -/
def BitField.handle_routed_message (w : Nat) (bf : BitField) (message : UiMessage)
    (has_descendant : Nat → Nat → Bool) : BitField × List UiMessage :=
  match message.data with
  | .check (some value) =>
    if message.direction = .FromWidget then
      match bf.bit_switches.findIdx? (fun s => s = message.destination) with
      | some bit_index =>
        let new_value :=
          if value then set_bit bf.value bit_index else reset_bit w bf.value bit_index
        (bf, [{ data := .bitValue new_value, destination := bf.handle,
                direction := .ToWidget }])
      | none => (bf, [])
    else (bf, [])
  | .bitValue value =>
    if message.destination = bf.handle ∧ message.direction = .ToWidget ∧
        value ≠ bf.value then
      let bf' := { bf with value := value }
      (bf', bf'.sync_switches ++ [message.reverse])
    else (bf, [])
  | .mouseDown button =>
    if button = .Right then
      (bf,
        bf.bit_switches.enum.filterMap fun p =>
          if has_descendant p.2 message.destination then
            let new_value :=
              if is_bit_set bf.value p.1 then (2 ^ w - 1) ^^^ (1 <<< p.1)
              else 1 <<< p.1
            some { data := .bitValue new_value, destination := bf.handle,
                   direction := MessageDirection.ToWidget }
          else none
        )
    else (bf, [])
  | .check none => (bf, [])
  | .other => (bf, [])

/-- A checkbox as produced by `CheckBoxBuilder` inside `BitFieldBuilder::build`:
its handle and its initial checked state. -/
structure BuiltCheckBox where
  handle : Nat
  checked : Option Bool
deriving DecidableEq, Repr

/-- `BitFieldBuilder::build`: one checkbox per bit of `T` (whose byte size is
`sizeOfT`), the `i`-th initially checked iff bit `i` of the initial value is
set; `base` models the next fresh handle of the build context. -/
def BitFieldBuilder.build (sizeOfT value base : Nat) : List BuiltCheckBox × BitField :=
  let bit_switches := (List.range (8 * sizeOfT)).map fun i =>
    { handle := base + i, checked := some (is_bit_set value i) : BuiltCheckBox }
  (bit_switches,
   { handle := base + 8 * sizeOfT + 1,
     value := value,
     bit_switches := bit_switches.map (·.handle) })

theorem findIdx?_eq_some_of_nodup {l : List Nat} {i : Nat} {a : Nat}
    (hnd : l.Nodup) (hi : i < l.length) (hget : l[i] = a) :
    l.findIdx? (fun s => s = a) = some i := by
  rw [List.findIdx?_eq_some_iff_getElem]
  refine ⟨hi, by simp [hget], ?_⟩
  intro j hji
  simp only [decide_eq_true_eq]
  intro hja
  have hfin : (⟨j, Nat.lt_trans hji hi⟩ : Fin l.length) = ⟨i, hi⟩ := by
    apply (List.Nodup.get_inj_iff hnd).mp
    simp [List.get_eq_getElem, hget, hja]
  have : j = i := congrArg Fin.val hfin
  omega

/-- C4: when `BitField::handle_routed_message` receives a
`CheckBoxMessage::Check(Some(b))` with direction `FromWidget` whose destination
is the `i`-th handle of `bit_switches` (the switch handles being distinct, as
the builder creates them), it sends itself, with direction `ToWidget`, a
`BitFieldMessage::Value` whose payload is `set_bit value i = value | (1 << i)`
when `b` is true and `reset_bit value i = value & !(1 << i)` when `b` is false,
and the stored `value` field is unchanged by this branch. -/
theorem bitfield_checkbox_toggle_sends_new_value (w : Nat) (bf : BitField)
    (message : UiMessage) (has_descendant : Nat → Nat → Bool) (i : Nat) (b : Bool)
    (hnd : bf.bit_switches.Nodup)
    (hi : i < bf.bit_switches.length)
    (hdest : bf.bit_switches[i] = message.destination)
    (hdata : message.data = .check (some b))
    (hdir : message.direction = .FromWidget) :
    BitField.handle_routed_message w bf message has_descendant =
      (bf, [{ data := .bitValue
                (if b then set_bit bf.value i else reset_bit w bf.value i),
              destination := bf.handle,
              direction := .ToWidget }]) := by
  simp [BitField.handle_routed_message, hdata, hdir,
    findIdx?_eq_some_of_nodup hnd hi hdest]

/-- Witness for C4: a three-switch field with value 5; checking switch 1
produces a `Value 7` message to the field itself. -/
theorem bitfield_checkbox_toggle_sends_new_value_witness :
    ([10, 11, 12] : List Nat).Nodup ∧
    BitField.handle_routed_message 8
        { handle := 100, value := 5, bit_switches := [10, 11, 12] }
        { data := .check (some true), destination := 11, direction := .FromWidget }
        (fun _ _ => false) =
      ({ handle := 100, value := 5, bit_switches := [10, 11, 12] },
       [{ data := .bitValue (if true then set_bit 5 1 else reset_bit 8 5 1),
          destination := 100, direction := .ToWidget }]) :=
  ⟨by decide,
   bitfield_checkbox_toggle_sends_new_value 8
     { handle := 100, value := 5, bit_switches := [10, 11, 12] }
     { data := .check (some true), destination := 11, direction := .FromWidget }
     (fun _ _ => false) 1 true (by decide) (by decide) (by decide) rfl rfl⟩

/-- C9: a `BitFieldMessage::Value v` addressed to the field itself with
direction `ToWidget` is ignored when `v` equals the current value (no state
change, no message sent, so a value echo cannot loop); when `v` differs, the
stored value becomes `v`, every `i`-th bit switch is sent the checked state
`is_bit_set v i`, and the message is reversed back as a `FromWidget`
notification. -/
theorem bitfield_value_message_sync_and_reverse (w : Nat) (bf : BitField)
    (message : UiMessage) (has_descendant : Nat → Nat → Bool) (v : Nat)
    (hdata : message.data = .bitValue v)
    (hdest : message.destination = bf.handle)
    (hdir : message.direction = .ToWidget) :
    (v = bf.value →
      BitField.handle_routed_message w bf message has_descendant = (bf, [])) ∧
    (v ≠ bf.value →
      BitField.handle_routed_message w bf message has_descendant =
        ({ bf with value := v },
         (bf.bit_switches.enum.map fun p =>
            { data := UiMessageData.check (some (is_bit_set v p.1)),
              destination := p.2,
              direction := MessageDirection.ToWidget })
           ++ [{ data := UiMessageData.bitValue v, destination := bf.handle,
                 direction := MessageDirection.FromWidget }])) := by
  constructor
  · intro h
    simp [BitField.handle_routed_message, hdata, hdest, hdir, h]
  · intro h
    simp [BitField.handle_routed_message, hdata, hdest, hdir, h,
      BitField.sync_switches, UiMessage.reverse]

/-- Witness for C9: the same field ignores an echo of its own value 5 and
processes a new value 6 by syncing both switches and reversing the message. -/
theorem bitfield_value_message_sync_and_reverse_witness :
    ((5 : Nat) = 5 →
      BitField.handle_routed_message 8
          { handle := 100, value := 5, bit_switches := [10, 11] }
          { data := .bitValue 5, destination := 100, direction := .ToWidget }
          (fun _ _ => false) =
        ({ handle := 100, value := 5, bit_switches := [10, 11] }, [])) ∧
    ((5 : Nat) ≠ 5 →
      BitField.handle_routed_message 8
          { handle := 100, value := 5, bit_switches := [10, 11] }
          { data := .bitValue 5, destination := 100, direction := .ToWidget }
          (fun _ _ => false) =
        ({ handle := 100, value := 5, bit_switches := [10, 11] },
         (([(0, 10), (1, 11)] : List (Nat × Nat)).map fun p =>
            { data := UiMessageData.check (some (is_bit_set 5 p.1)),
              destination := p.2,
              direction := MessageDirection.ToWidget })
           ++ [{ data := UiMessageData.bitValue 5, destination := 100,
                 direction := MessageDirection.FromWidget }])) :=
  bitfield_value_message_sync_and_reverse 8
    { handle := 100, value := 5, bit_switches := [10, 11] }
    { data := .bitValue 5, destination := 100, direction := .ToWidget }
    (fun _ _ => false) 5 rfl rfl rfl

/-- C10: `BitFieldBuilder::build` creates exactly `8 * size_of T` bit-switch
checkboxes, the `i`-th initially checked iff `is_bit_set initial_value i`; the
widget's `bit_switches` vector has that same length, so any position-based
index obtained when routing checkbox messages is a valid bit index of `T`. -/
theorem bitfield_builder_switch_per_bit (sizeOfT value base : Nat) :
    (BitFieldBuilder.build sizeOfT value base).1.length = 8 * sizeOfT ∧
    (BitFieldBuilder.build sizeOfT value base).2.bit_switches.length = 8 * sizeOfT ∧
    (BitFieldBuilder.build sizeOfT value base).1.map (·.checked) =
      (List.range (8 * sizeOfT)).map (fun i => some (is_bit_set value i)) ∧
    (∀ dest i,
      (BitFieldBuilder.build sizeOfT value base).2.bit_switches.findIdx?
        (fun s => s = dest) = some i → i < 8 * sizeOfT) := by
  refine ⟨?_, ?_, ?_, ?_⟩
  · simp [BitFieldBuilder.build]
  · simp [BitFieldBuilder.build]
  · simp [BitFieldBuilder.build, List.map_map]
  · intro dest i h
    have := (List.findIdx?_eq_some_iff_findIdx_eq.mp h).1
    simpa [BitFieldBuilder.build] using this

/-- Witness for C10 at `size_of T = 1`, initial value `0b10100001`, base 0. -/
theorem bitfield_builder_switch_per_bit_witness :
    (BitFieldBuilder.build 1 161 0).1.length = 8 * 1 ∧
    (BitFieldBuilder.build 1 161 0).2.bit_switches.length = 8 * 1 ∧
    (BitFieldBuilder.build 1 161 0).1.map (·.checked) =
      (List.range (8 * 1)).map (fun i => some (is_bit_set 161 i)) ∧
    (∀ dest i,
      (BitFieldBuilder.build 1 161 0).2.bit_switches.findIdx?
        (fun s => s = dest) = some i → i < 8 * 1) :=
  bitfield_builder_switch_per_bit 1 161 0

/-! ## editor/src/animation/data/thumb.rs

`f32` animation times are modelled as `ℚ`; the claims about this file are
purely order-theoretic (`min`/`max` comparisons).  Only the widget handles the
`NumericUpDownMessage::<f32>::Value` branch compares against are kept. -/

structure TimeSlice where
  start : ℚ
  stop : ℚ
deriving DecidableEq, Repr

structure SetAnimationTimeSliceCommand where
  node_handle : Nat
  animation_handle : Nat
  value : TimeSlice
deriving DecidableEq, Repr

structure ThumbDataView where
  position_box : Nat
  start_box : Nat
  end_box : Nat
deriving DecidableEq, Repr

/-- The effect of one `NumericUpDownMessage` branch of
`ThumbDataView::handle_ui_message`: either the playback thumb is moved
(`set_thumb`) or a `SetAnimationTimeSliceCommand` is submitted to the sender. -/
inductive ThumbAction
  | setThumb (v : ℚ)
  | submit (c : SetAnimationTimeSliceCommand)
deriving DecidableEq, Repr

/-- The `NumericUpDownMessage::<f32>::Value(value)` branch of
`ThumbDataView::handle_ui_message`: `current` is
`animations[selection.animation].time_slice()`, `player` the animation player
handle and `anim` the selected animation handle. -/
def ThumbDataView.handle_numeric_value (t : ThumbDataView) (destination : Nat)
    (direction : MessageDirection) (value : ℚ) (current : TimeSlice)
    (player anim : Nat) : Option ThumbAction :=
  if direction = .FromWidget then
    if destination = t.position_box then
      some (.setThumb value)
    else if destination = t.start_box then
      some (.submit
        { node_handle := player, animation_handle := anim,
          value := { start := min value current.stop, stop := current.stop } })
    else if destination = t.end_box then
      some (.submit
        { node_handle := player, animation_handle := anim,
          value := { start := current.start, stop := max value current.start } })
    else
      none
  else
    none

/-- C5: a value `v` arriving from the start box submits a command carrying
`start = min v current.stop` with the end unchanged; from the end box it
carries `stop = max v current.start` with the start unchanged; consequently
every submitted time slice satisfies `start ≤ stop` whenever the current one
does (the box handles are distinct, as the builder creates them). -/
theorem thumb_time_slice_commands_preserve_order (t : ThumbDataView)
    (destination : Nat) (v : ℚ) (current : TimeSlice) (player anim : Nat)
    (hps : t.position_box ≠ t.start_box)
    (hpe : t.position_box ≠ t.end_box)
    (hse : t.start_box ≠ t.end_box) :
    (destination = t.start_box →
      t.handle_numeric_value destination .FromWidget v current player anim =
        some (.submit
          { node_handle := player, animation_handle := anim,
            value := { start := min v current.stop, stop := current.stop } })) ∧
    (destination = t.end_box →
      t.handle_numeric_value destination .FromWidget v current player anim =
        some (.submit
          { node_handle := player, animation_handle := anim,
            value := { start := current.start, stop := max v current.start } })) ∧
    (∀ c, t.handle_numeric_value destination .FromWidget v current player anim =
        some (.submit c) →
      current.start ≤ current.stop → c.value.start ≤ c.value.stop) := by
  refine ⟨?_, ?_, ?_⟩
  · intro h
    subst h
    simp [ThumbDataView.handle_numeric_value, Ne.symm hps]
  · intro h
    subst h
    simp [ThumbDataView.handle_numeric_value, Ne.symm hpe, Ne.symm hse]
  · intro c hc hcur
    unfold ThumbDataView.handle_numeric_value at hc
    by_cases h1 : destination = t.position_box <;>
      by_cases h2 : destination = t.start_box <;>
        by_cases h3 : destination = t.end_box <;>
          simp only [h1, h2, h3, Ne.symm hps, Ne.symm hpe, Ne.symm hse, if_pos,
            if_neg, if_true, if_false, reduceIte, Option.some.injEq,
            ThumbAction.submit.injEq, reduceCtorEq] at hc <;>
          (subst hc; simp [min_le_right, le_max_right])

/-- Witness for C5 with boxes 1, 2, 3, a current slice `[0, 4]` and an
incoming start value 7 (clamped down to 4). -/
theorem thumb_time_slice_commands_preserve_order_witness :
    (1 : Nat) ≠ 2 ∧ (1 : Nat) ≠ 3 ∧ (2 : Nat) ≠ 3 ∧
    (((2 : Nat) = 2 →
      ThumbDataView.handle_numeric_value
          { position_box := 1, start_box := 2, end_box := 3 } 2 .FromWidget
          (7 : ℚ) { start := 0, stop := 4 } 50 60 =
        some (.submit
          { node_handle := 50, animation_handle := 60,
            value := { start := min (7 : ℚ) 4, stop := 4 } })) ∧
    (((2 : Nat) = 3 →
      ThumbDataView.handle_numeric_value
          { position_box := 1, start_box := 2, end_box := 3 } 2 .FromWidget
          (7 : ℚ) { start := 0, stop := 4 } 50 60 =
        some (.submit
          { node_handle := 50, animation_handle := 60,
            value := { start := 0, stop := max (7 : ℚ) 0 } })) ∧
    (∀ c, ThumbDataView.handle_numeric_value
          { position_box := 1, start_box := 2, end_box := 3 } 2 .FromWidget
          (7 : ℚ) { start := 0, stop := 4 } 50 60 =
        some (.submit c) →
      (0 : ℚ) ≤ 4 → c.value.start ≤ c.value.stop))) :=
  ⟨by decide, by decide, by decide,
   thumb_time_slice_commands_preserve_order
     { position_box := 1, start_box := 2, end_box := 3 } 2 (7 : ℚ)
     { start := 0, stop := 4 } 50 60 (by decide) (by decide) (by decide)⟩

/-! ## editor/src/animation/data.rs — preview mode and `handle_message`

Scene-graph nodes are a type parameter `N`; the graph is a total map from
handles (`Nat`) to nodes, `node_overrides` is the `FxHashSet` of overridden
handles, and `preview_mode_data.nodes` is the saved `(handle, node)` list
(the animation targets plus the animation player, pushed last). -/

inductive EditorMessage
  | DoCommand
  | UndoCurrentSceneCommand
  | RedoCurrentSceneCommand
  | other
deriving DecidableEq, Repr

structure AnimationDataEditor (N : Type) where
  preview_mode_data : Option (List (Nat × N))

/-- The loop body of `leave_preview_mode`: for each saved `(handle, node)`,
remove the handle from `node_overrides` and write the node back into the
graph. -/
def revert_nodes {N : Type} (nodes : List (Nat × N)) (graph : Nat → N)
    (node_overrides : Finset Nat) : (Nat → N) × Finset Nat :=
  nodes.foldl
    (fun st p => (Function.update st.1 p.1 p.2, st.2.erase p.1))
    (graph, node_overrides)

/-- `AnimationDataEditor::leave_preview_mode` (the source `expect`s that
preview data is present; `try_leave_preview_mode` guards the call). -/
def AnimationDataEditor.leave_preview_mode {N : Type}
    (ed : AnimationDataEditor N) (graph : Nat → N) (node_overrides : Finset Nat) :
    AnimationDataEditor N × (Nat → N) × Finset Nat :=
  match ed.preview_mode_data with
  | some nodes =>
    let st := revert_nodes nodes graph node_overrides
    ({ preview_mode_data := none }, st.1, st.2)
  | none => (ed, graph, node_overrides)

/-- `AnimationDataEditor::try_leave_preview_mode`. -/
def AnimationDataEditor.try_leave_preview_mode {N : Type}
    (ed : AnimationDataEditor N) (graph : Nat → N) (node_overrides : Finset Nat) :
    AnimationDataEditor N × (Nat → N) × Finset Nat :=
  if ed.preview_mode_data.isSome then
    ed.leave_preview_mode graph node_overrides
  else
    (ed, graph, node_overrides)

def AnimationDataEditor.is_in_preview_mode {N : Type}
    (ed : AnimationDataEditor N) : Bool :=
  ed.preview_mode_data.isSome

/-- `AnimationDataEditor::handle_message`: leave preview mode before execution
of any scene command. -/
def AnimationDataEditor.handle_message {N : Type}
    (ed : AnimationDataEditor N) (message : EditorMessage) (graph : Nat → N)
    (node_overrides : Finset Nat) :
    AnimationDataEditor N × (Nat → N) × Finset Nat :=
  match message with
  | .DoCommand | .UndoCurrentSceneCommand | .RedoCurrentSceneCommand =>
    ed.try_leave_preview_mode graph node_overrides
  | .other => (ed, graph, node_overrides)

theorem revert_nodes_graph_not_key {N : Type} (nodes : List (Nat × N))
    (graph : Nat → N) (ov : Finset Nat) (x : Nat)
    (hx : x ∉ nodes.map Prod.fst) :
    (revert_nodes nodes graph ov).1 x = graph x := by
  induction nodes generalizing graph ov with
  | nil => rfl
  | cons q rest ih =>
    simp only [List.map_cons, List.mem_cons, not_or] at hx
    unfold revert_nodes at *
    simp only [List.foldl_cons]
    rw [ih _ _ hx.2, Function.update_noteq hx.1]

theorem revert_nodes_mem_overrides {N : Type} (nodes : List (Nat × N))
    (graph : Nat → N) (ov : Finset Nat) (x : Nat) :
    x ∈ (revert_nodes nodes graph ov).2 ↔
      x ∈ ov ∧ x ∉ nodes.map Prod.fst := by
  induction nodes generalizing graph ov with
  | nil => simp [revert_nodes]
  | cons q rest ih =>
    unfold revert_nodes at *
    simp only [List.foldl_cons, List.map_cons, List.mem_cons, not_or]
    rw [ih]
    simp only [Finset.mem_erase]
    tauto

theorem revert_nodes_writes_back {N : Type} (nodes : List (Nat × N))
    (graph : Nat → N) (ov : Finset Nat) (p : Nat × N)
    (hnd : (nodes.map Prod.fst).Nodup) (hp : p ∈ nodes) :
    (revert_nodes nodes graph ov).1 p.1 = p.2 := by
  induction nodes generalizing graph ov with
  | nil => cases hp
  | cons q rest ih =>
    simp only [List.map_cons, List.nodup_cons] at hnd
    rcases List.mem_cons.mp hp with h | h
    · subst h
      unfold revert_nodes at *
      simp only [List.foldl_cons]
      rw [show (List.foldl _ _ rest : (Nat → N) × Finset Nat) =
          revert_nodes rest (Function.update graph p.1 p.2) (ov.erase p.1) from rfl,
        revert_nodes_graph_not_key _ _ _ _ hnd.1, Function.update_same]
    · unfold revert_nodes at *
      simp only [List.foldl_cons]
      exact ih _ _ hnd.2 h

/-- C6: on `DoCommand`, `UndoCurrentSceneCommand` and
`RedoCurrentSceneCommand`, `handle_message` first leaves preview mode when it
is active: afterwards `is_in_preview_mode` is `false`, every node saved on
entering preview mode is written back into the graph and its handle removed
from `node_overrides` (the saved handles are distinct, as `enter_preview_mode`
asserts on inserting them); when preview mode is not active the call changes
nothing. -/
theorem handle_message_leaves_preview_mode {N : Type}
    (ed : AnimationDataEditor N) (message : EditorMessage) (graph : Nat → N)
    (node_overrides : Finset Nat)
    (hmsg : message = .DoCommand ∨ message = .UndoCurrentSceneCommand ∨
      message = .RedoCurrentSceneCommand) :
    (ed.handle_message message graph node_overrides).1.is_in_preview_mode = false ∧
    (∀ nodes, ed.preview_mode_data = some nodes →
      (nodes.map Prod.fst).Nodup →
      ∀ p ∈ nodes,
        (ed.handle_message message graph node_overrides).2.1 p.1 = p.2 ∧
        p.1 ∉ (ed.handle_message message graph node_overrides).2.2) ∧
    (ed.preview_mode_data = none →
      ed.handle_message message graph node_overrides =
        (ed, graph, node_overrides)) := by
  have hm : ed.handle_message message graph node_overrides =
      ed.try_leave_preview_mode graph node_overrides := by
    rcases hmsg with h | h | h <;> subst h <;> rfl
  rw [hm]
  rcases hdata : ed.preview_mode_data with _ | nodes
  · refine ⟨?_, ?_, ?_⟩
    · simp [AnimationDataEditor.try_leave_preview_mode, hdata,
        AnimationDataEditor.is_in_preview_mode]
    · intro nodes h
      cases h
    · intro _
      simp [AnimationDataEditor.try_leave_preview_mode, hdata]
  · refine ⟨?_, ?_, ?_⟩
    · simp [AnimationDataEditor.try_leave_preview_mode, hdata,
        AnimationDataEditor.leave_preview_mode,
        AnimationDataEditor.is_in_preview_mode]
    · intro nodes' h hnd p hp
      cases h
      constructor
      · simp [AnimationDataEditor.try_leave_preview_mode, hdata,
          AnimationDataEditor.leave_preview_mode]
        exact revert_nodes_writes_back _ _ _ _ hnd hp
      · simp [AnimationDataEditor.try_leave_preview_mode, hdata,
          AnimationDataEditor.leave_preview_mode, revert_nodes_mem_overrides]
        intro _
        exact ⟨p.2, by simpa using hp⟩
    · intro h
      cases h

/-- Witness for C6: a two-node preview session (player node at handle 1,
target at handle 2) is fully reverted by a `DoCommand`. -/
theorem handle_message_leaves_preview_mode_witness :
    (EditorMessage.DoCommand = .DoCommand ∨
      EditorMessage.DoCommand = .UndoCurrentSceneCommand ∨
      EditorMessage.DoCommand = .RedoCurrentSceneCommand) ∧
    ((AnimationDataEditor.handle_message
        { preview_mode_data := some [(2, 20), (1, 10)] } .DoCommand
        (fun _ => (0 : Nat)) ({1, 2} : Finset Nat)).1.is_in_preview_mode = false ∧
     (∀ nodes,
        ({ preview_mode_data := some [(2, 20), (1, 10)] } :
          AnimationDataEditor Nat).preview_mode_data = some nodes →
        (nodes.map Prod.fst).Nodup →
        ∀ p ∈ nodes,
          (AnimationDataEditor.handle_message
            { preview_mode_data := some [(2, 20), (1, 10)] } .DoCommand
            (fun _ => (0 : Nat)) ({1, 2} : Finset Nat)).2.1 p.1 = p.2 ∧
          p.1 ∉ (AnimationDataEditor.handle_message
            { preview_mode_data := some [(2, 20), (1, 10)] } .DoCommand
            (fun _ => (0 : Nat)) ({1, 2} : Finset Nat)).2.2) ∧
     (({ preview_mode_data := some [(2, 20), (1, 10)] } :
          AnimationDataEditor Nat).preview_mode_data = none →
        AnimationDataEditor.handle_message
          { preview_mode_data := some [(2, 20), (1, 10)] } .DoCommand
          (fun _ => (0 : Nat)) ({1, 2} : Finset Nat) =
        ({ preview_mode_data := some [(2, 20), (1, 10)] },
          (fun _ => (0 : Nat)), ({1, 2} : Finset Nat)))) :=
  ⟨Or.inl rfl,
   handle_message_leaves_preview_mode
     { preview_mode_data := some [(2, 20), (1, 10)] } .DoCommand
     (fun _ => (0 : Nat)) ({1, 2} : Finset Nat) (Or.inl rfl)⟩

/-! ## fyrox-impl renderer framework types

The graphics-framework vocabulary the render passes under `src/` use:
draw parameters, blending, stencil state, element ranges and per-pass
statistics.  `RenderPassStatistics` is modelled minimally as the pair of
counters the framework accumulates with `+=` (component-wise addition with an
all-zero `default`); `FrameworkError` is an opaque error token.  A fallible
GPU draw is an oracle `call ↦ Except FrameworkError RenderPassStatistics`. -/

inductive BlendFactor
  | Zero
  | One
  | SrcAlpha
  | OneMinusSrcAlpha
  | DstAlpha
  | OneMinusDstAlpha
deriving DecidableEq, Repr

structure BlendFunc where
  sfactor : BlendFactor
  dfactor : BlendFactor
deriving DecidableEq, Repr

/-- `BlendFunc::new(sfactor, dfactor)`. -/
def BlendFunc.new (s d : BlendFactor) : BlendFunc :=
  { sfactor := s, dfactor := d }

/-- `BlendParameters` restricted to the `func` field; the blend-equation
fields are always left at `..Default::default()` in this repository. -/
structure BlendParameters where
  func : BlendFunc
deriving DecidableEq, Repr

inductive CompareFunc
  | Never
  | Less
  | Equal
  | LessOrEqual
  | Greater
  | NotEqual
  | GreaterOrEqual
  | Always
deriving DecidableEq, Repr

structure StencilFunc where
  func : CompareFunc
  ref_value : Nat
deriving DecidableEq, Repr

inductive StencilAction
  | Keep
  | Zero
  | Replace
  | Incr
  | Decr
deriving DecidableEq, Repr

structure StencilOp where
  zpass : StencilAction
deriving DecidableEq, Repr

instance : Inhabited StencilOp := ⟨{ zpass := .Keep }⟩

structure ScissorBox where
  x : Int
  y : Int
  width : Int
  height : Int
deriving DecidableEq, Repr

structure ColorMask where
  red : Bool
  green : Bool
  blue : Bool
  alpha : Bool
deriving DecidableEq, Repr

def ColorMask.all (v : Bool) : ColorMask :=
  { red := v, green := v, blue := v, alpha := v }

instance : Inhabited ColorMask := ⟨ColorMask.all true⟩

inductive CullFace
  | Back
  | Front
deriving DecidableEq, Repr

structure DrawParameters where
  cull_face : Option CullFace
  color_write : ColorMask
  depth_write : Bool
  stencil_test : Option StencilFunc
  depth_test : Option CompareFunc
  blend : Option BlendParameters
  stencil_op : StencilOp
  scissor_box : Option ScissorBox
deriving DecidableEq, Repr

inductive ElementRange
  | Full
  | Specific (offset : Nat) (count : Nat)
deriving DecidableEq, Repr

structure RenderPassStatistics where
  draw_calls : Nat
  triangles_rendered : Nat
deriving DecidableEq, Repr

def RenderPassStatistics.zero : RenderPassStatistics :=
  { draw_calls := 0, triangles_rendered := 0 }

instance : Add RenderPassStatistics :=
  ⟨fun a b =>
    { draw_calls := a.draw_calls + b.draw_calls,
      triangles_rendered := a.triangles_rendered + b.triangles_rendered }⟩

theorem RenderPassStatistics.zero_add (s : RenderPassStatistics) :
    RenderPassStatistics.zero + s = s := by
  cases s with
  | mk d t =>
    show RenderPassStatistics.mk (0 + d) (0 + t) = RenderPassStatistics.mk d t
    simp

structure FrameworkError where
  code : Nat
deriving DecidableEq, Repr

/-- `Rect<i32>` with `w()`/`h()` accessors inlined as fields. -/
structure Rect where
  x : Int
  y : Int
  w : Int
  h : Int
deriving DecidableEq, Repr

/-- Which geometry buffer a draw sources its vertices from. -/
inductive GeometryTag
  | unitQuad
  | unitCube
  | uiGeometry
  | clippingGeometry
deriving DecidableEq, Repr

/-! ## fyrox-impl/src/renderer/fxaa.rs -/

/-- The one draw `FxaaRenderer::render` issues: geometry, element range, draw
parameters and the `inverseScreenSize` uniform (`f32` components as `ℚ`). -/
structure FxaaDrawCall where
  geometry : GeometryTag
  range : ElementRange
  params : DrawParameters
  inverse_screen_size : ℚ × ℚ
deriving DecidableEq, Repr

/-- The `DrawParameters` literal inside `FxaaRenderer::render`. -/
def fxaa_draw_parameters : DrawParameters :=
  { cull_face := none,
    color_write := default,
    depth_write := false,
    stencil_test := none,
    depth_test := none,
    blend := none,
    stencil_op := default,
    scissor_box := none }

def fxaa_draw_call (viewport : Rect) : FxaaDrawCall :=
  { geometry := .unitQuad,
    range := .Full,
    params := fxaa_draw_parameters,
    inverse_screen_size :=
      (1 / (viewport.w : ℚ), 1 / (viewport.h : ℚ)) }

/-- `FxaaRenderer::render`: one fullscreen draw of the unit quad, statistics
accumulated into `RenderPassStatistics::default()`, the draw's error
propagated by `?`.  Returns the issued draw calls and the result. -/
def FxaaRenderer.render
    (draw : FxaaDrawCall → Except FrameworkError RenderPassStatistics)
    (viewport : Rect) :
    List FxaaDrawCall × Except FrameworkError RenderPassStatistics :=
  match draw (fxaa_draw_call viewport) with
  | .ok s => ([fxaa_draw_call viewport], .ok (RenderPassStatistics.zero + s))
  | .error e => ([fxaa_draw_call viewport], .error e)

/-- C7: `FxaaRenderer::render` issues exactly one draw call, covering the full
element range of the unit quad, with the `inverseScreenSize` uniform set to
`(1/viewport.w, 1/viewport.h)`; it returns `Ok` with that single draw's
statistics when the draw succeeds and propagates its `FrameworkError`
(issuing no further draws) otherwise. -/
theorem fxaa_render_single_fullscreen_draw
    (draw : FxaaDrawCall → Except FrameworkError RenderPassStatistics)
    (viewport : Rect) :
    (FxaaRenderer.render draw viewport).1 = [fxaa_draw_call viewport] ∧
    (fxaa_draw_call viewport).geometry = .unitQuad ∧
    (fxaa_draw_call viewport).range = .Full ∧
    (fxaa_draw_call viewport).inverse_screen_size =
      (1 / (viewport.w : ℚ), 1 / (viewport.h : ℚ)) ∧
    (∀ s, draw (fxaa_draw_call viewport) = .ok s →
      (FxaaRenderer.render draw viewport).2 = .ok s) ∧
    (∀ e, draw (fxaa_draw_call viewport) = .error e →
      (FxaaRenderer.render draw viewport).2 = .error e) := by
  refine ⟨?_, rfl, rfl, rfl, ?_, ?_⟩
  · unfold FxaaRenderer.render
    cases draw (fxaa_draw_call viewport) <;> rfl
  · intro s hs
    unfold FxaaRenderer.render
    rw [hs]
    simp [RenderPassStatistics.zero_add]
  · intro e he
    unfold FxaaRenderer.render
    rw [he]


/-- Witness for C7 on an 800×600 viewport with a draw that reports one draw
call of two triangles, and on a failing draw. -/
theorem fxaa_render_single_fullscreen_draw_witness :
    (∀ s, (fun _ => Except.ok { draw_calls := 1, triangles_rendered := 2 } :
        FxaaDrawCall → Except FrameworkError RenderPassStatistics)
        (fxaa_draw_call { x := 0, y := 0, w := 800, h := 600 }) = .ok s →
      (FxaaRenderer.render
        (fun _ => Except.ok { draw_calls := 1, triangles_rendered := 2 })
        { x := 0, y := 0, w := 800, h := 600 }).2 = .ok s) ∧
    (∀ e, (fun _ => Except.error { code := 3 } :
        FxaaDrawCall → Except FrameworkError RenderPassStatistics)
        (fxaa_draw_call { x := 0, y := 0, w := 800, h := 600 }) = .error e →
      (FxaaRenderer.render (fun _ => Except.error { code := 3 })
        { x := 0, y := 0, w := 800, h := 600 }).2 = .error e) :=
  ⟨(fxaa_render_single_fullscreen_draw
      (fun _ => Except.ok { draw_calls := 1, triangles_rendered := 2 })
      { x := 0, y := 0, w := 800, h := 600 }).2.2.2.2.1,
   (fxaa_render_single_fullscreen_draw
      (fun _ => Except.error { code := 3 })
      { x := 0, y := 0, w := 800, h := 600 }).2.2.2.2.2⟩

/-! ## fyrox-impl/src/renderer/gbuffer/mod.rs

`GBuffer::fill` is embedded as the ordered list of steps it executes, run
against a draw oracle.  A step either succeeds with statistics (accumulated
with `+=`) or fails, in which case `?` stops the pass and propagates the
error.  The occlusion tester and the surface bundles live outside `src/`, so
a grid cell is abstracted to its `is_visible` query and a bundle render to the
set of instances the `instance_filter` closure admits. -/

inductive RenderPath
  | Deferred
  | Forward
deriving DecidableEq, Repr

structure SurfaceInstanceData where
  node_handle : Nat
deriving DecidableEq, Repr

structure Bundle where
  render_path : RenderPath
  instances : List SurfaceInstanceData
deriving DecidableEq, Repr

structure RenderDataBundleStorage where
  bundles : List Bundle
deriving DecidableEq, Repr

structure QualitySettings where
  use_occlusion_culling : Bool
  use_parallax_mapping : Bool
deriving DecidableEq, Repr

/-- A cell of the occlusion tester's grid cache, abstracted to its
`is_visible(node_handle)` query. -/
structure GridCell where
  visible : Nat → Bool

def GridCell.is_visible (cell : GridCell) (node_handle : Nat) : Bool :=
  cell.visible node_handle

/-- A decal scene node, identified by its pool handle. -/
structure Decal where
  handle : Nat
  layer : Nat
deriving DecidableEq, Repr

/-- A scene-graph node as `GBuffer::fill` sees it: `cast::<Decal>()` either
succeeds or fails. -/
inductive SceneNode
  | decal (d : Decal)
  | other (handle : Nat)
deriving DecidableEq, Repr

def SceneNode.castDecal : SceneNode → Option Decal
  | .decal d => some d
  | .other _ => none

/-- The `instance_filter` closure of `GBuffer::fill`:
`!use_occlusion_culling || grid_cell.map_or(true, |cell| cell.is_visible(h))`. -/
def instance_filter (quality_settings : QualitySettings)
    (grid_cell : Option GridCell) (inst : SurfaceInstanceData) : Bool :=
  !quality_settings.use_occlusion_culling ||
    (match grid_cell with
     | none => true
     | some cell => cell.is_visible inst.node_handle)

/-- The instances of Deferred-path bundles that `fill` passes to
`render_to_frame_buffer` (which draws exactly the instances its
`instance_filter` admits). -/
def deferred_rendered_instances (quality_settings : QualitySettings)
    (grid_cell : Option GridCell) (bundle_storage : RenderDataBundleStorage) :
    List SurfaceInstanceData :=
  (bundle_storage.bundles.filter
    (fun b => b.render_path == RenderPath.Deferred)).flatMap
    (fun b => b.instances.filter (instance_filter quality_settings grid_cell))

/-- C1: an instance of a Deferred-render-path bundle is passed to rendering
iff occlusion culling is disabled, or the grid cache has no cell at the
camera position, or that cell reports the instance's node handle visible; in
particular with `use_occlusion_culling = false` the `instance_filter` accepts
every instance. -/
theorem gbuffer_instance_filter_spec (quality_settings : QualitySettings)
    (grid_cell : Option GridCell) (bundle_storage : RenderDataBundleStorage)
    (inst : SurfaceInstanceData) :
    (inst ∈ deferred_rendered_instances quality_settings grid_cell
        bundle_storage ↔
      ∃ b ∈ bundle_storage.bundles, b.render_path = RenderPath.Deferred ∧
        inst ∈ b.instances ∧
        (quality_settings.use_occlusion_culling = false ∨
          grid_cell = none ∨
          ∃ cell, grid_cell = some cell ∧
            cell.is_visible inst.node_handle = true)) ∧
    (quality_settings.use_occlusion_culling = false →
      ∀ i, instance_filter quality_settings grid_cell i = true) := by
  constructor
  · unfold deferred_rendered_instances instance_filter
    simp only [List.mem_flatMap, List.mem_filter, beq_iff_eq]
    constructor
    · rintro ⟨b, ⟨hb, hpath⟩, hi, hfilt⟩
      refine ⟨b, hb, hpath, hi, ?_⟩
      rcases grid_cell with _ | cell
      · exact Or.inr (Or.inl rfl)
      · rcases hocc : quality_settings.use_occlusion_culling with _ | _
        · exact Or.inl rfl
        · refine Or.inr (Or.inr ⟨cell, rfl, ?_⟩)
          simpa [hocc, GridCell.is_visible] using hfilt
    · rintro ⟨b, hb, hpath, hi, hvis⟩
      refine ⟨b, ⟨hb, hpath⟩, hi, ?_⟩
      rcases hvis with h | h | ⟨cell, hcell, hvis⟩
      · simp [h]
      · simp [h]
      · simp only [GridCell.is_visible] at hvis
        simp [hcell]
        exact Or.inr hvis
  · intro h i
    simp [instance_filter, h]

/-- Witness for C1: with culling on and a cell that sees only handle 7, the
lone deferred instance with handle 7 is rendered; with culling off the filter
accepts anything. -/
theorem gbuffer_instance_filter_spec_witness :
    (({ node_handle := 7 } : SurfaceInstanceData) ∈
        deferred_rendered_instances
          { use_occlusion_culling := true, use_parallax_mapping := false }
          (some { visible := fun h => h == 7 })
          { bundles := [{ render_path := .Deferred,
                          instances := [{ node_handle := 7 }] }] } ↔
      ∃ b ∈ [({ render_path := .Deferred,
                instances := [{ node_handle := 7 }] } : Bundle)],
        b.render_path = RenderPath.Deferred ∧
        ({ node_handle := 7 } : SurfaceInstanceData) ∈ b.instances ∧
        ((true : Bool) = false ∨
          (some { visible := fun h => h == 7 } : Option GridCell) = none ∨
          ∃ cell, (some { visible := fun h => h == 7 } : Option GridCell) =
              some cell ∧ cell.is_visible 7 = true)) ∧
    ((false : Bool) = false →
      ∀ i, instance_filter
        { use_occlusion_culling := false, use_parallax_mapping := false }
        (some { visible := fun h => h == 7 }) i = true) :=
  ⟨(gbuffer_instance_filter_spec
      { use_occlusion_culling := true, use_parallax_mapping := false }
      (some { visible := fun h => h == 7 })
      { bundles := [{ render_path := .Deferred,
                      instances := [{ node_handle := 7 }] }] }
      { node_handle := 7 }).1,
   fun h i => (gbuffer_instance_filter_spec
      { use_occlusion_culling := false, use_parallax_mapping := false }
      (some { visible := fun h => h == 7 })
      { bundles := [] } { node_handle := 7 }).2 h i⟩

/-- Run a pass's steps in order against a draw oracle, accumulating
statistics with `+=`; the first failing step makes `?` return its error, so
later steps are never issued.  Returns the issued steps and the result. -/
def run_steps {Step : Type}
    (oracle : Step → Except FrameworkError RenderPassStatistics) :
    List Step → RenderPassStatistics →
    List Step × Except FrameworkError RenderPassStatistics
  | [], statistics => ([], .ok statistics)
  | step :: rest, statistics =>
    match oracle step with
    | .ok s =>
      let r := run_steps oracle rest (statistics + s)
      (step :: r.1, r.2)
    | .error e => ([step], .error e)

theorem run_steps_ok_issues_all {Step : Type}
    (oracle : Step → Except FrameworkError RenderPassStatistics)
    (steps : List Step) (statistics stats : RenderPassStatistics)
    (issued : List Step)
    (h : run_steps oracle steps statistics = (issued, .ok stats)) :
    issued = steps := by
  induction steps generalizing statistics stats issued with
  | nil =>
    simp only [run_steps, Prod.mk.injEq] at h
    exact h.1.symm
  | cons step rest ih =>
    rcases ho : oracle step with e | s
    · simp only [run_steps, ho, Prod.mk.injEq] at h
      exact absurd h.2 (by simp)
    · simp only [run_steps, ho] at h
      rcases hr : run_steps oracle rest (statistics + s) with ⟨issued', r⟩
      rw [hr] at h
      simp only [Prod.mk.injEq] at h
      cases r with
      | error e => exact absurd h.2 (by simp)
      | ok s' => rw [← h.1, ih _ s' issued' hr]

/-- A step of `GBuffer::fill`, in execution order: querying last frame's
visibility results, clearing the G-Buffer framebuffer, rendering one surface
bundle through `render_to_frame_buffer`, running the occlusion visibility
test, and one decal draw into the decal framebuffer. -/
inductive GBufferStep
  | queryVisibilityResults
  | clearFramebuffer
  | renderBundle (b : Bundle)
  | visibilityTest
  | decalDraw (d : Decal) (geometry : GeometryTag) (params : DrawParameters)
      (range : ElementRange)
deriving DecidableEq, Repr

/-- The `DrawParameters` literal of the decal loop in `GBuffer::fill`. -/
def decal_draw_parameters : DrawParameters :=
  { cull_face := none,
    color_write := default,
    depth_write := false,
    stencil_test := none,
    depth_test := none,
    blend := some { func := BlendFunc.new .SrcAlpha .OneMinusSrcAlpha },
    stencil_op := default,
    scissor_box := none }

/-- The steps `GBuffer::fill` executes, in source order: optional visibility
query, clear, the Deferred-path bundles, optional visibility test, then one
unit-cube draw per `Decal` node of the graph in `linear_iter` order. -/
def gbuffer_fill_steps (quality_settings : QualitySettings)
    (bundle_storage : RenderDataBundleStorage) (graph : List SceneNode) :
    List GBufferStep :=
  (if quality_settings.use_occlusion_culling
    then [GBufferStep.queryVisibilityResults] else []) ++
  [GBufferStep.clearFramebuffer] ++
  (bundle_storage.bundles.filter
    (fun b => b.render_path == RenderPath.Deferred)).map GBufferStep.renderBundle ++
  (if quality_settings.use_occlusion_culling
    then [GBufferStep.visibilityTest] else []) ++
  (graph.filterMap SceneNode.castDecal).map
    (fun d => GBufferStep.decalDraw d .unitCube decal_draw_parameters .Full)

/-- `GBuffer::fill`, as the run of its steps against a draw oracle. -/
def GBuffer.fill
    (oracle : GBufferStep → Except FrameworkError RenderPassStatistics)
    (quality_settings : QualitySettings)
    (bundle_storage : RenderDataBundleStorage) (graph : List SceneNode) :
    List GBufferStep × Except FrameworkError RenderPassStatistics :=
  run_steps oracle (gbuffer_fill_steps quality_settings bundle_storage graph)
    RenderPassStatistics.zero

/-- C2: when `GBuffer::fill` succeeds, the decal draws all come after every
Deferred-path bundle render; each `Decal` node of the graph gets, in graph
iteration order, exactly one full-element-range unit-cube draw into the decal
framebuffer whose parameters blend with `SrcAlpha`/`OneMinusSrcAlpha` and
disable `depth_write`, so the decal pass never modifies the depth buffer. -/
theorem gbuffer_decals_drawn_after_geometry
    (oracle : GBufferStep → Except FrameworkError RenderPassStatistics)
    (quality_settings : QualitySettings)
    (bundle_storage : RenderDataBundleStorage) (graph : List SceneNode)
    (issued : List GBufferStep) (stats : RenderPassStatistics)
    (hok : GBuffer.fill oracle quality_settings bundle_storage graph =
      (issued, .ok stats)) :
    issued =
      ((if quality_settings.use_occlusion_culling
          then [GBufferStep.queryVisibilityResults] else []) ++
        [GBufferStep.clearFramebuffer] ++
        (bundle_storage.bundles.filter
          (fun b => b.render_path == RenderPath.Deferred)).map
          GBufferStep.renderBundle ++
        (if quality_settings.use_occlusion_culling
          then [GBufferStep.visibilityTest] else []) ++
        (graph.filterMap SceneNode.castDecal).map
          (fun d => GBufferStep.decalDraw d .unitCube decal_draw_parameters
            .Full)) ∧
    decal_draw_parameters.depth_write = false ∧
    decal_draw_parameters.blend =
      some { func := BlendFunc.new .SrcAlpha .OneMinusSrcAlpha } := by
  refine ⟨?_, rfl, rfl⟩
  exact run_steps_ok_issues_all oracle _ _ _ _ hok

/-- Witness for C2: a graph with one decal between two plain nodes and one
deferred bundle, an always-succeeding oracle. -/
theorem gbuffer_decals_drawn_after_geometry_witness :
    GBuffer.fill (fun _ => Except.ok { draw_calls := 1, triangles_rendered := 2 })
        { use_occlusion_culling := true, use_parallax_mapping := false }
        { bundles := [{ render_path := .Deferred,
                        instances := [{ node_handle := 7 }] }] }
        [.other 1, .decal { handle := 5, layer := 0 }, .other 2] =
      ([.queryVisibilityResults, .clearFramebuffer,
        .renderBundle { render_path := .Deferred,
                        instances := [{ node_handle := 7 }] },
        .visibilityTest,
        .decalDraw { handle := 5, layer := 0 } .unitCube decal_draw_parameters
          .Full],
       .ok { draw_calls := 5, triangles_rendered := 10 }) ∧
    ((GBuffer.fill (fun _ => Except.ok { draw_calls := 1, triangles_rendered := 2 })
        { use_occlusion_culling := true, use_parallax_mapping := false }
        { bundles := [{ render_path := .Deferred,
                        instances := [{ node_handle := 7 }] }] }
        [.other 1, .decal { handle := 5, layer := 0 }, .other 2]).1 =
      ((if (true : Bool) then [GBufferStep.queryVisibilityResults] else []) ++
        [GBufferStep.clearFramebuffer] ++
        (([{ render_path := .Deferred,
             instances := [{ node_handle := 7 }] }] : List Bundle).filter
          (fun b => b.render_path == RenderPath.Deferred)).map
          GBufferStep.renderBundle ++
        (if (true : Bool) then [GBufferStep.visibilityTest] else []) ++
        (([.other 1, .decal { handle := 5, layer := 0 }, .other 2] :
            List SceneNode).filterMap SceneNode.castDecal).map
          (fun d => GBufferStep.decalDraw d .unitCube decal_draw_parameters
            .Full)) ∧
      decal_draw_parameters.depth_write = false ∧
      decal_draw_parameters.blend =
        some { func := BlendFunc.new .SrcAlpha .OneMinusSrcAlpha }) := by
  have hfill : GBuffer.fill
      (fun _ => Except.ok { draw_calls := 1, triangles_rendered := 2 })
      { use_occlusion_culling := true, use_parallax_mapping := false }
      { bundles := [{ render_path := .Deferred,
                      instances := [{ node_handle := 7 }] }] }
      [.other 1, .decal { handle := 5, layer := 0 }, .other 2] =
      ([.queryVisibilityResults, .clearFramebuffer,
        .renderBundle { render_path := .Deferred,
                        instances := [{ node_handle := 7 }] },
        .visibilityTest,
        .decalDraw { handle := 5, layer := 0 } .unitCube decal_draw_parameters
          .Full],
       .ok { draw_calls := 5, triangles_rendered := 10 }) := by
    rfl
  refine ⟨hfill, ?_⟩
  have := gbuffer_decals_drawn_after_geometry
    (fun _ => Except.ok { draw_calls := 1, triangles_rendered := 2 })
    { use_occlusion_culling := true, use_parallax_mapping := false }
    { bundles := [{ render_path := .Deferred,
                    instances := [{ node_handle := 7 }] }] }
    [.other 1, .decal { handle := 5, layer := 0 }, .other 2]
    (GBuffer.fill (fun _ => Except.ok { draw_calls := 1, triangles_rendered := 2 })
        { use_occlusion_culling := true, use_parallax_mapping := false }
        { bundles := [{ render_path := .Deferred,
                        instances := [{ node_handle := 7 }] }] }
        [.other 1, .decal { handle := 5, layer := 0 }, .other 2]).1
    { draw_calls := 5, triangles_rendered := 10 }
    (by rw [hfill])
  exact this

/-! ## fyrox-impl/src/renderer/ui_renderer.rs

`UiRenderer::render` walks the drawing context's commands in order.  `f32`
clip bounds are `ℚ`; a command's clipping geometry, when present, is
identified by a `Nat`.  The fields of a command that only feed the material
(brush, texture, opacity) do not affect which draws are issued and are
omitted. -/

structure RectQ where
  x : ℚ
  y : ℚ
  w : ℚ
  h : ℚ
deriving DecidableEq, Repr

structure TriangleRange where
  start : Nat
  stop : Nat
deriving DecidableEq, Repr

structure DrawCommand where
  clip_bounds : RectQ
  clipping_geometry : Option Nat
  triangles : TriangleRange
deriving DecidableEq, Repr

/-- The scissor box computed at the top of the command loop: positions
floored, sizes ceiled, `y` flipped to OpenGL's lower-left origin. -/
def ui_scissor_box (viewport : Rect) (clip_bounds : RectQ) : ScissorBox :=
  { x := ⌊clip_bounds.x⌋,
    y := viewport.h - (⌊clip_bounds.y⌋ + ⌈clip_bounds.h⌉),
    width := ⌈clip_bounds.w⌉,
    height := ⌈clip_bounds.h⌉ }

/-- The `DrawParameters` of the stencil-marking clipping-geometry draw:
color and depth writes off, `Incr` on stencil z-pass. -/
def ui_clipping_draw_parameters (scissor_box : Option ScissorBox) :
    DrawParameters :=
  { cull_face := none,
    color_write := ColorMask.all false,
    depth_write := false,
    stencil_test := none,
    depth_test := none,
    blend := none,
    stencil_op := { zpass := .Incr },
    scissor_box := scissor_box }

/-- The `DrawParameters` of the primary pass: alpha blending and whatever
stencil test the clipping stage selected. -/
def ui_primary_draw_parameters (stencil_test : Option StencilFunc)
    (scissor_box : Option ScissorBox) : DrawParameters :=
  { cull_face := none,
    color_write := ColorMask.all true,
    depth_write := false,
    stencil_test := stencil_test,
    depth_test := none,
    blend := some { func := BlendFunc.new .SrcAlpha .OneMinusSrcAlpha },
    stencil_op := default,
    scissor_box := scissor_box }

/-- A step of `UiRenderer::render`: the stencil clear, the clipping-geometry
draw, or the primary `run_pass` draw. -/
inductive UiStep
  | clearStencil
  | clippingDraw (geometry : Nat) (params : DrawParameters)
  | primaryDraw (range : ElementRange) (params : DrawParameters)
deriving DecidableEq, Repr

/-- The steps one command issues: with clipping geometry, stencil clear,
stencil-marking draw, then the primary draw restricted to the command's
triangle range with stencil test `Equal` against reference 1; without, just
the primary draw with no stencil test. -/
def ui_command_steps (viewport : Rect) (cmd : DrawCommand) : List UiStep :=
  match cmd.clipping_geometry with
  | some g =>
    [.clearStencil,
     .clippingDraw g
       (ui_clipping_draw_parameters
         (some (ui_scissor_box viewport cmd.clip_bounds))),
     .primaryDraw
       (.Specific cmd.triangles.start
         (cmd.triangles.stop - cmd.triangles.start))
       (ui_primary_draw_parameters
         (some { func := .Equal, ref_value := 1 })
         (some (ui_scissor_box viewport cmd.clip_bounds)))]
  | none =>
    [.primaryDraw
       (.Specific cmd.triangles.start
         (cmd.triangles.stop - cmd.triangles.start))
       (ui_primary_draw_parameters none
         (some (ui_scissor_box viewport cmd.clip_bounds)))]

/-- Run the UI pass's steps against a draw oracle.  `statistics +=` is
applied to the clipping-geometry draw only: the primary `run_pass` result
passes through `?` but is not accumulated in the source.  The first failure
stops the loop. -/
def run_ui_steps
    (oracle : UiStep → Except FrameworkError RenderPassStatistics) :
    List UiStep → RenderPassStatistics →
    List UiStep × Except FrameworkError RenderPassStatistics
  | [], statistics => ([], .ok statistics)
  | step :: rest, statistics =>
    match oracle step with
    | .ok s =>
      let acc :=
        match step with
        | .primaryDraw _ _ => statistics
        | _ => statistics + s
      let r := run_ui_steps oracle rest acc
      (step :: r.1, r.2)
    | .error e => ([step], .error e)

/-- `UiRenderer::render` over a drawing context's command list. -/
def UiRenderer.render
    (oracle : UiStep → Except FrameworkError RenderPassStatistics)
    (viewport : Rect) (commands : List DrawCommand) :
    List UiStep × Except FrameworkError RenderPassStatistics :=
  run_ui_steps oracle (commands.flatMap (ui_command_steps viewport))
    RenderPassStatistics.zero

theorem run_ui_steps_ok_issues_all
    (oracle : UiStep → Except FrameworkError RenderPassStatistics)
    (steps : List UiStep) (statistics stats : RenderPassStatistics)
    (issued : List UiStep)
    (h : run_ui_steps oracle steps statistics = (issued, .ok stats)) :
    issued = steps := by
  induction steps generalizing statistics stats issued with
  | nil =>
    simp only [run_ui_steps, Prod.mk.injEq] at h
    exact h.1.symm
  | cons step rest ih =>
    rcases ho : oracle step with e | s
    · simp only [run_ui_steps, ho, Prod.mk.injEq] at h
      exact absurd h.2 (by simp)
    · simp only [run_ui_steps, ho] at h
      obtain ⟨acc, hacc⟩ : ∃ acc, (match step with
          | UiStep.primaryDraw _ _ => statistics
          | _ => statistics + s) = acc := ⟨_, rfl⟩
      rw [hacc] at h
      rcases hr : run_ui_steps oracle rest acc with ⟨issued', r⟩
      rw [hr] at h
      simp only [Prod.mk.injEq] at h
      cases r with
      | error e => exact absurd h.2 (by simp)
      | ok s' => rw [← h.1, ih _ s' issued' hr]

/-- C3: when `UiRenderer::render` succeeds it has processed the commands in
order, issuing per command exactly one primary-pass draw restricted to the
command's triangle range (offset `triangles.start`, count
`triangles.end - triangles.start`), preceded by one stencil-marking draw of
the clipping geometry iff the command carries one, in which case the primary
draw tests stencil `Equal` against reference value 1 and otherwise runs with
no stencil test. -/
theorem ui_render_one_primary_draw_per_command
    (oracle : UiStep → Except FrameworkError RenderPassStatistics)
    (viewport : Rect) (commands : List DrawCommand)
    (issued : List UiStep) (stats : RenderPassStatistics)
    (hok : UiRenderer.render oracle viewport commands = (issued, .ok stats)) :
    issued = commands.flatMap (ui_command_steps viewport) ∧
    (∀ cmd, ∀ g, cmd.clipping_geometry = some g →
      ui_command_steps viewport cmd =
        [.clearStencil,
         .clippingDraw g
           (ui_clipping_draw_parameters
             (some (ui_scissor_box viewport cmd.clip_bounds))),
         .primaryDraw
           (.Specific cmd.triangles.start
             (cmd.triangles.stop - cmd.triangles.start))
           (ui_primary_draw_parameters
             (some { func := .Equal, ref_value := 1 })
             (some (ui_scissor_box viewport cmd.clip_bounds)))]) ∧
    (∀ cmd, cmd.clipping_geometry = none →
      ui_command_steps viewport cmd =
        [.primaryDraw
           (.Specific cmd.triangles.start
             (cmd.triangles.stop - cmd.triangles.start))
           (ui_primary_draw_parameters none
             (some (ui_scissor_box viewport cmd.clip_bounds)))]) ∧
    (∀ st sb, (ui_primary_draw_parameters st sb).stencil_test = st) := by
  refine ⟨run_ui_steps_ok_issues_all oracle _ _ _ _ hok, ?_, ?_, fun _ _ => rfl⟩
  · intro cmd g hg
    unfold ui_command_steps
    rw [hg]
  · intro cmd hg
    unfold ui_command_steps
    rw [hg]

/-- Witness for C3: one clipped and one unclipped command against an
always-succeeding oracle. -/
theorem ui_render_one_primary_draw_per_command_witness :
    UiRenderer.render (fun _ => Except.ok { draw_calls := 1, triangles_rendered := 2 })
        { x := 0, y := 0, w := 100, h := 100 }
        [{ clip_bounds := { x := 0, y := 0, w := 10, h := 10 },
           clipping_geometry := some 3,
           triangles := { start := 0, stop := 6 } },
         { clip_bounds := { x := 1, y := 2, w := 3, h := 4 },
           clipping_geometry := none,
           triangles := { start := 6, stop := 9 } }] =
      (([{ clip_bounds := { x := 0, y := 0, w := 10, h := 10 },
           clipping_geometry := some 3,
           triangles := { start := 0, stop := 6 } },
         { clip_bounds := { x := 1, y := 2, w := 3, h := 4 },
           clipping_geometry := none,
           triangles := { start := 6, stop := 9 } }] :
          List DrawCommand).flatMap
        (ui_command_steps { x := 0, y := 0, w := 100, h := 100 }),
       .ok { draw_calls := 2, triangles_rendered := 4 }) ∧
    ((UiRenderer.render (fun _ => Except.ok { draw_calls := 1, triangles_rendered := 2 })
        { x := 0, y := 0, w := 100, h := 100 }
        [{ clip_bounds := { x := 0, y := 0, w := 10, h := 10 },
           clipping_geometry := some 3,
           triangles := { start := 0, stop := 6 } },
         { clip_bounds := { x := 1, y := 2, w := 3, h := 4 },
           clipping_geometry := none,
           triangles := { start := 6, stop := 9 } }]).1 =
      ([{ clip_bounds := { x := 0, y := 0, w := 10, h := 10 },
          clipping_geometry := some 3,
          triangles := { start := 0, stop := 6 } },
        { clip_bounds := { x := 1, y := 2, w := 3, h := 4 },
          clipping_geometry := none,
          triangles := { start := 6, stop := 9 } }] :
         List DrawCommand).flatMap
        (ui_command_steps { x := 0, y := 0, w := 100, h := 100 }) ∧
     (∀ cmd, ∀ g, cmd.clipping_geometry = some g →
       ui_command_steps { x := 0, y := 0, w := 100, h := 100 } cmd =
         [.clearStencil,
          .clippingDraw g
            (ui_clipping_draw_parameters
              (some (ui_scissor_box { x := 0, y := 0, w := 100, h := 100 }
                cmd.clip_bounds))),
          .primaryDraw
            (.Specific cmd.triangles.start
              (cmd.triangles.stop - cmd.triangles.start))
            (ui_primary_draw_parameters
              (some { func := .Equal, ref_value := 1 })
              (some (ui_scissor_box { x := 0, y := 0, w := 100, h := 100 }
                cmd.clip_bounds)))]) ∧
     (∀ cmd, cmd.clipping_geometry = none →
       ui_command_steps { x := 0, y := 0, w := 100, h := 100 } cmd =
         [.primaryDraw
            (.Specific cmd.triangles.start
              (cmd.triangles.stop - cmd.triangles.start))
            (ui_primary_draw_parameters none
              (some (ui_scissor_box { x := 0, y := 0, w := 100, h := 100 }
                cmd.clip_bounds)))]) ∧
     (∀ st sb, (ui_primary_draw_parameters st sb).stencil_test = st)) := by
  have hrender : UiRenderer.render
      (fun _ => Except.ok { draw_calls := 1, triangles_rendered := 2 })
      { x := 0, y := 0, w := 100, h := 100 }
      [{ clip_bounds := { x := 0, y := 0, w := 10, h := 10 },
         clipping_geometry := some 3,
         triangles := { start := 0, stop := 6 } },
       { clip_bounds := { x := 1, y := 2, w := 3, h := 4 },
         clipping_geometry := none,
         triangles := { start := 6, stop := 9 } }] =
      (([{ clip_bounds := { x := 0, y := 0, w := 10, h := 10 },
           clipping_geometry := some 3,
           triangles := { start := 0, stop := 6 } },
         { clip_bounds := { x := 1, y := 2, w := 3, h := 4 },
           clipping_geometry := none,
           triangles := { start := 6, stop := 9 } }] :
          List DrawCommand).flatMap
        (ui_command_steps { x := 0, y := 0, w := 100, h := 100 }),
       .ok { draw_calls := 2, triangles_rendered := 4 }) := by
    rfl
  refine ⟨hrender, ?_⟩
  exact ui_render_one_primary_draw_per_command
    (fun _ => Except.ok { draw_calls := 1, triangles_rendered := 2 })
    { x := 0, y := 0, w := 100, h := 100 }
    [{ clip_bounds := { x := 0, y := 0, w := 10, h := 10 },
       clipping_geometry := some 3,
       triangles := { start := 0, stop := 6 } },
     { clip_bounds := { x := 1, y := 2, w := 3, h := 4 },
       clipping_geometry := none,
       triangles := { start := 6, stop := 9 } }]
    _ { draw_calls := 2, triangles_rendered := 4 } hrender

end Fyrox
